import Mathlib

/-!
Verification development for the nuclear-explosions Streamlit application
(`nuclear_explosions.py`).  The chart-specification builder
`prepare_chart_data`, the derived `Yield.Avg` column of `load_data`, and the
visuals-queue `add` handler are embedded shallowly below.

Modelling conventions:
* a pandas cell that may be `NaN` becomes an `Option`; numeric cells are `Rat`;
* a `DataFrame` is a list of typed rows together with the list of column names
  actually present; reading a column that is not present raises `KeyError` in
  Python, which is modelled by `Except PyError`;
* `Series.value_counts()` (which drops `NaN` before it is called on an
  already-materialised list, and returns counts sorted descending) and
  `sort_index()` are modelled by `valueCounts` and `sortIndex`;
* `Series.map(lambda ...)` applies the lambda to `NaN` cells as well
  (pandas default `na_action=None`), so a missing purpose code is turned into
  the string `str(nan) = "nan"` by `purposes.get(x, str(x))`.
-/

/-- A calendar date as produced by `pd.to_datetime` in `load_data`
(`Date.Year`/`Date.Month`/`Date.Day` combined into one `Date` column). -/
structure PDate where
  year : Int
  month : Int
  day : Int
deriving DecidableEq

/-- One detonation record: a row of the DataFrame returned by `load_data`
(after the date columns are combined, the coordinate columns renamed and
`Yield.Avg` derived).  A `none` models a `NaN` cell. -/
structure Row where
  latitude : Option Rat
  longitude : Option Rat
  dataName : Option String
  date : Option PDate
  yieldLower : Option Rat
  yieldUpper : Option Rat
  yieldAvg : Option Rat
  magnitudeBody : Option Rat
  magnitudeSurface : Option Rat
  depth : Option Rat
  purpose : Option String
  depType : Option String
  depLocation : Option String
  sourceCountry : Option String
  dataSource : Option String
deriving DecidableEq

/-- A row in which every cell is `NaN`. -/
def emptyRow : Row :=
  { latitude := none, longitude := none, dataName := none, date := none
    yieldLower := none, yieldUpper := none, yieldAvg := none
    magnitudeBody := none, magnitudeSurface := none, depth := none
    purpose := none, depType := none, depLocation := none
    sourceCountry := none, dataSource := none }

/-- A pandas DataFrame: the set of columns present plus the typed rows.
Reading a column outside `cols` raises `KeyError` in Python even though the
typed row carries a slot for it. -/
structure DFrame where
  cols : List String
  rows : List Row
deriving DecidableEq

/-- The columns of the DataFrame produced by `load_data`. -/
def loadCols : List String :=
  ["Date", "latitude", "longitude", "Data.Name",
   "Data.Yield.Lower", "Data.Yield.Upper", "Yield.Avg",
   "Data.Magnitude.Body", "Data.Magnitude.Surface",
   "Location.Cordinates.Depth", "Data.Purpose", "Data.Type",
   "WEAPON DEPLOYMENT LOCATION", "WEAPON SOURCE COUNTRY", "Data.Source"]

/-- A DataFrame with the full `load_data` schema. -/
def mkDf (rows : List Row) : DFrame := ⟨loadCols, rows⟩

/-- `df["Yield.Avg"] = (df["Data.Yield.Lower"] + df["Data.Yield.Upper"]) / 2`
from `load_data` (line 54): pandas arithmetic propagates `NaN`, so the average
is missing whenever either bound is. -/
def mkYieldAvg (lo hi : Option Rat) : Option Rat :=
  match lo, hi with
  | some l, some u => some ((l + u) / 2)
  | _, _ => none

/-- The Python exception escaping `prepare_chart_data`. -/
inductive PyError where
  | keyError (col : String)
deriving DecidableEq

/-- First required column that is absent from the DataFrame, if any
(a column access `df[c]` / `df[[c, ...]]` raises `KeyError` for it). -/
def checkCols (df : DFrame) (cs : List String) : Option String :=
  cs.find? (fun c => !(df.cols.contains c))

/-- One point of the map branch `points_df` after the branch's column
selection, `Yield.Avg` coercion/fill and `Date_str` formatting. -/
structure MapPoint where
  latitude : Option Rat
  longitude : Option Rat
  dataName : Option String
  date : Option PDate
  yieldAvg : Rat
  sourceCountry : Option String
  dateStr : Option String
deriving DecidableEq

/-- Zero-pad a numeral to two digits (the `%m` / `%d` of `strftime`). -/
def pad2 (n : Int) : String :=
  let s := toString n
  if s.length < 2 then "0" ++ s else s

/-- `Date.dt.strftime("%Y-%m-%d")` on one date. -/
def fmtDate (d : PDate) : String :=
  toString d.year ++ "-" ++ pad2 d.month ++ "-" ++ pad2 d.day

/-- The static `country_color_map` of the map branch (RGBA quadruples). -/
def countryColorMap : List (String × List Nat) :=
  [("USA", [0, 0, 255, 180]), ("USSR", [255, 0, 0, 180]),
   ("FRANCE", [0, 255, 0, 180]), ("UK", [255, 165, 0, 180]),
   ("CHINA", [255, 255, 0, 180]), ("INDIA", [255, 105, 180, 180]),
   ("PAKIST", [75, 0, 130, 180])]

/-- The fixed per-branch rendering properties (`chart_specific_props`):
static configuration passed through to the renderer. -/
inductive ChartProps where
  | noProps
  | mapProps (colorMap : List (String × List Nat))
  | histProps (bins : Nat) (color edgecolor : String)
  | plotProps (marker linestyle color : String)
  | barhProps (color : String)
  | scatterProps (alpha : Rat) (edgecolors : String) (linewidth : Rat)
  | pieProps (autopct : String) (startangle : Nat)
deriving DecidableEq

/-- The `data` mapping of the result, one shape per chart kind. -/
inductive ChartData where
  | empty
  | points (pointsDf : List MapPoint)
  | values (values : List Rat)
  | series (xValues : List Int) (yValues : List Nat)
  | bars (yCategories : List String) (xValues : List Nat)
  | scatter (xValues : List Rat) (yValues : List Rat)
  | pie (sizes : List Nat) (labels : List String)
deriving DecidableEq

/-- The `result` dictionary returned by `prepare_chart_data`. -/
structure ChartResult where
  success : Bool
  message : String
  chartType : Option String
  data : ChartData
  labels : List (String × String)
  chartSpecificProps : ChartProps
  finalDisplayName : String
deriving DecidableEq

/-- `purposes.get(x, str(x))` applied to one cell of `df["Data.Purpose"]`:
the lambda is applied to `NaN` cells too (`Series.map` default
`na_action=None`), and `purposes.get(nan, str(nan))` misses the string-keyed
dictionary, yielding the string `"nan"`. -/
def purposeLabel (purposes : List (String × String)) (p : Option String) : String :=
  match p with
  | some s => ((purposes.lookup s).getD s)
  | none => "nan"

/-- Accumulate a value at the end unless already seen (groupby order of the
first occurrence, as in `value_counts`). -/
def seenInsert [DecidableEq α] (acc : List α) (a : α) : List α :=
  if a ∈ acc then acc else acc ++ [a]

/-- Distinct values of a list in order of first occurrence. -/
def distinctFirst [DecidableEq α] (xs : List α) : List α :=
  xs.foldl seenInsert []

/-- Descending-count order used by `value_counts()`. -/
def countOrder (p q : α × Nat) : Prop := q.2 ≤ p.2

instance : DecidableRel (@countOrder α) := fun p q => Nat.decLe q.2 p.2

instance : IsTotal (α × Nat) countOrder := ⟨fun p q => Nat.le_total q.2 p.2⟩

instance : IsTrans (α × Nat) countOrder := ⟨fun _ _ _ h1 h2 => le_trans h2 h1⟩

/-- Ascending order on the index of a `(year, count)` series, used by
`sort_index()`. -/
def yearOrder (p q : Int × Nat) : Prop := p.1 ≤ q.1

instance : DecidableRel yearOrder := fun p q => Int.decLe p.1 q.1

instance : IsTotal (Int × Nat) yearOrder := ⟨fun p q => Int.le_total p.1 q.1⟩

instance : IsTrans (Int × Nat) yearOrder := ⟨fun _ _ _ h1 h2 => le_trans h1 h2⟩

/-- `Series.value_counts()`: occurrence counts of the distinct values, sorted
descending by count (ties keep first-occurrence order). -/
def valueCounts [DecidableEq α] (xs : List α) : List (α × Nat) :=
  List.insertionSort countOrder ((distinctFirst xs).map (fun a => (a, xs.count a)))

/-- `Series.sort_index()` on a `(year, count)` series. -/
def sortIndex (l : List (Int × Nat)) : List (Int × Nat) :=
  List.insertionSort yearOrder l

/-- The map branch's `points_df`: column selection plus
`pd.to_numeric(...).fillna(0)` on `Yield.Avg` and the `Date_str` column
(`strftime` maps `NaT` to `NaN`). -/
def mapPointOf (r : Row) : MapPoint :=
  { latitude := r.latitude, longitude := r.longitude, dataName := r.dataName
    date := r.date, yieldAvg := r.yieldAvg.getD 0
    sourceCountry := r.sourceCountry, dateStr := r.date.map fmtDate }

/-- Histogram branch `data_values = df["Yield.Avg"].dropna()`. -/
def histValues (rows : List Row) : List Rat :=
  rows.filterMap Row.yieldAvg

/-- Timeline branch `temp_dates.dt.year` with the `NaN` entries that
`value_counts` drops already removed. -/
def yearSeries (rows : List Row) : List Int :=
  rows.filterMap (fun r => r.date.map PDate.year)

/-- Timeline branch
`detonations_by_year = temp_dates.dt.year.value_counts().sort_index()`. -/
def detonationsByYear (rows : List Row) : List (Int × Nat) :=
  sortIndex (valueCounts (yearSeries rows))

/-- Bar branch
`purpose_series = df["Data.Purpose"].map(lambda x: purposes.get(x, str(x))).dropna()`;
the `dropna` removes nothing because every mapped cell is a string. -/
def purposeSeries (purposes : List (String × String)) (rows : List Row) : List String :=
  rows.map (fun r => purposeLabel purposes r.purpose)

/-- Scatter branch
`plot_df = df[["Yield.Avg", "Location.Cordinates.Depth"]].copy().dropna()`:
the complete `(yield, depth)` pairs, in row order. -/
def scatterRows (rows : List Row) : List (Rat × Rat) :=
  rows.filterMap (fun r =>
    match r.yieldAvg, r.depth with
    | some y, some d => some (y, d)
    | _, _ => none)

/-- Pie branch `df["WEAPON SOURCE COUNTRY"]` with `value_counts` dropping the
`NaN` cells. -/
def supplierSeries (rows : List Row) : List String :=
  rows.filterMap Row.sourceCountry

/-- The six recognised visual categories (`VISUAL_CATEGORY_OPTIONS`). -/
def visualCategoryOptions : List String :=
  ["Map of Filtered Detonations",
   "Histogram of Average Yields",
   "Timeline: Detonations by Year",
   "Bar Chart: Detonations by Purpose",
   "Scatter Plot: Yield vs. Depth",
   "Pie Chart: Detonations by Supplier Nation"]

/-- Python `str.strip()`: drop whitespace from both ends
(structural translation over the character list). -/
def pyStrip (s : String) : String :=
  ⟨((s.data.dropWhile Char.isWhitespace).reverse.dropWhile Char.isWhitespace).reverse⟩

/-- Python `str.lower()` (ASCII case folding, as used by the sentinel test). -/
def pyLower (s : String) : String :=
  ⟨s.data.map Char.toLower⟩

/-- `prepare_chart_data(category, visual_id, df, purposes, custom_name)`
(lines 65-228).  The `Except` layer models the Python exceptions that the
function does not catch: a `.error` is an exception escaping to the caller,
a `.ok` is a normal return of the `result` dictionary.  In the source the
parameter `custom_name` defaults to `"no name"`. -/
def prepareChartData (category : String) (visualId : Nat) (df? : Option DFrame)
    (purposes : List (String × String)) (customName : String) :
    Except PyError ChartResult :=
  let strippedCustomName := pyStrip customName
  let finalDisplayName :=
    if strippedCustomName ≠ "" ∧ pyLower strippedCustomName ≠ "no name" then
      strippedCustomName
    else
      "Visual #" ++ toString visualId
  let result : ChartResult :=
    { success := false
      message := "Visual category not recognized or data preparation failed."
      chartType := none
      data := .empty
      labels := []
      chartSpecificProps := .noProps
      finalDisplayName := finalDisplayName }
  match df? with
  | none => .ok { result with message := "No data available after filtering to generate visual." }
  | some df =>
    if df.rows = [] then
      .ok { result with message := "No data available after filtering to generate visual." }
    else if category = "Map of Filtered Detonations" then
      let result := { result with chartType := some "pydeck_scatter_detailed" }
      match checkCols df ["latitude", "longitude", "Data.Name", "Date", "Yield.Avg", "WEAPON SOURCE COUNTRY"] with
      | some c => .error (.keyError c)
      | none =>
        let pointsDf := df.rows.map mapPointOf
        if pointsDf ≠ [] then
          .ok { result with
                success := true,
                message := "Data prepared for detailed PyDeck map.",
                data := .points pointsDf,
                chartSpecificProps := .mapProps countryColorMap }
        else
          .ok { result with message := "No valid coordinate data for map." }
    else if category = "Histogram of Average Yields" then
      let result := { result with chartType := some "hist" }
      match checkCols df ["Yield.Avg"] with
      | some c => .error (.keyError c)
      | none =>
        let dataValues := histValues df.rows
        if dataValues ≠ [] then
          .ok { result with
                success := true,
                message := "Data prepared for histogram.",
                data := .values dataValues,
                labels := [("x_label", "Average Yield (kt)"), ("y_label", "Number of Detonations")],
                chartSpecificProps := .histProps 20 "skyblue" "black" }
        else
          .ok { result with message := "No \x27Yield.Avg\x27 data (all NaN or empty) to display histogram." }
    else if category = "Timeline: Detonations by Year" then
      let result := { result with chartType := some "plot" }
      match checkCols df ["Date"] with
      | some c => .error (.keyError c)
      | none =>
        let byYear := detonationsByYear df.rows
        if byYear ≠ [] then
          .ok { result with
                success := true,
                message := "Data prepared for timeline.",
                data := .series (byYear.map Prod.fst) (byYear.map Prod.snd),
                labels := [("x_label", "Year"), ("y_label", "Number of Detonations")],
                chartSpecificProps := .plotProps "o" "-" "green" }
        else
          .ok { result with message := "No data to plot timeline by year after processing." }
    else if category = "Bar Chart: Detonations by Purpose" then
      let result := { result with chartType := some "barh" }
      match checkCols df ["Data.Purpose"] with
      | some c => .error (.keyError c)
      | none =>
        let purposeCounts := valueCounts (purposeSeries purposes df.rows)
        if purposeCounts ≠ [] then
          .ok { result with
                success := true,
                message := "Data prepared for bar chart.",
                data := .bars (purposeCounts.map Prod.fst) (purposeCounts.map Prod.snd),
                labels := [("x_label", "Number of Detonations")],
                chartSpecificProps := .barhProps "coral" }
        else
          .ok { result with message := "No \x27Data.Purpose\x27 entries found or all are NaN after mapping." }
    else if category = "Scatter Plot: Yield vs. Depth" then
      let result := { result with chartType := some "scatter" }
      match checkCols df ["Yield.Avg", "Location.Cordinates.Depth"] with
      | some c => .error (.keyError c)
      | none =>
        let plotDf := scatterRows df.rows
        if plotDf ≠ [] ∧ plotDf.length > 1 then
          .ok { result with
                success := true,
                message := "Data prepared for scatter plot.",
                data := .scatter (plotDf.map Prod.snd) (plotDf.map Prod.fst),
                labels := [("x_label", "Depth (km)"), ("y_label", "Average Yield (kt)")],
                chartSpecificProps := .scatterProps (0.6 : Rat) "w" (0.5 : Rat) }
        else
          .ok { result with message := "Not enough valid data points (Yield & Depth) for scatter plot after dropping NaNs." }
    else if category = "Pie Chart: Detonations by Supplier Nation" then
      let result := { result with chartType := some "pie" }
      match checkCols df ["WEAPON SOURCE COUNTRY"] with
      | some c => .error (.keyError c)
      | none =>
        let supplierCounts := valueCounts (supplierSeries df.rows)
        if supplierCounts ≠ [] then
          .ok { result with
                success := true,
                message := "Data prepared for pie chart.",
                data := .pie (supplierCounts.map Prod.snd) (supplierCounts.map Prod.fst),
                labels := [],
                chartSpecificProps := .pieProps "%.1f%%" 90 }
        else
          .ok { result with message := "No \x27WEAPON SOURCE COUNTRY\x27 data to display pie chart." }
    else
      .ok { result with message := "The visual category \x27" ++ category ++ "\x27 is not recognized or implemented." }

/-- One queued visual: `{"id": ..., "type": ..., "user_input_name": ...}`. -/
structure QueuedVisual where
  id : Nat
  type : String
  userInputName : String
deriving DecidableEq

/-- The session state touched by the add-visual form:
`visual_id_counter` and `visuals_to_render`. -/
structure QueueState where
  visualIdCounter : Nat
  visualsToRender : List QueuedVisual
deriving DecidableEq

/-- Outcome of one submission of the add-visual form. -/
inductive AddOutcome where
  | added
  | rejectedFull
  | rejectedNoCategory
deriving DecidableEq

/-- The `if submitted:` handler (lines 615-638): a valid category under the
cap of 10 increments the counter and appends the new visual; at the cap the
add is rejected with a warning and the state is unchanged. -/
def submitAddVisual (s : QueueState) (category name : String) : QueueState × AddOutcome :=
  if category ≠ "Select a category..." then
    if s.visualIdCounter < 10 then
      ({ visualIdCounter := s.visualIdCounter + 1
         visualsToRender := s.visualsToRender ++
           [{ id := s.visualIdCounter + 1, type := category, userInputName := name }] },
       .added)
    else
      (s, .rejectedFull)
  else
    (s, .rejectedNoCategory)

/-- The session state at session start (lines 572-576). -/
def initialQueueState : QueueState := ⟨0, []⟩

/-- Run a sequence of add-visual submissions. -/
def applyAdds (s : QueueState) : List (String × String) → QueueState
  | [] => s
  | (c, n) :: rest => applyAdds (submitAddVisual s c n).1 rest

/-- Sample row with only an average yield. -/
def rowY (y : Rat) : Row := { emptyRow with yieldAvg := some y }

/-- Sample row with an average yield and a depth. -/
def rowYD (y d : Rat) : Row := { emptyRow with yieldAvg := some y, depth := some d }

/-- Sample row with only a date. -/
def rowYear (y : Int) : Row := { emptyRow with date := some ⟨y, 1, 1⟩ }

/-- Sample row with only a purpose code. -/
def rowPurpose (p : String) : Row := { emptyRow with purpose := some p }


/-!
Generic lemmas about the aggregation helpers (`distinctFirst`, `valueCounts`,
`sortIndex`) and the list combinators the branch proofs need.
-/

theorem mem_foldl_seenInsert [DecidableEq α] (a : α) (xs acc : List α) :
    a ∈ xs.foldl seenInsert acc ↔ a ∈ acc ∨ a ∈ xs := by
  induction xs generalizing acc with
  | nil => simp
  | cons b xs ih =>
    rw [List.foldl_cons, ih]
    unfold seenInsert
    by_cases hb : b ∈ acc
    · rw [if_pos hb]
      simp only [List.mem_cons]
      constructor
      · rintro (h | h)
        · exact Or.inl h
        · exact Or.inr (Or.inr h)
      · rintro (h | rfl | h)
        · exact Or.inl h
        · exact Or.inl hb
        · exact Or.inr h
    · rw [if_neg hb]
      simp only [List.mem_append, List.mem_singleton, List.mem_cons]
      tauto

theorem mem_distinctFirst [DecidableEq α] (a : α) (xs : List α) :
    a ∈ distinctFirst xs ↔ a ∈ xs := by
  unfold distinctFirst
  rw [mem_foldl_seenInsert]
  simp

theorem nodup_foldl_seenInsert [DecidableEq α] (xs acc : List α) (h : acc.Nodup) :
    (xs.foldl seenInsert acc).Nodup := by
  induction xs generalizing acc with
  | nil => simpa
  | cons b xs ih =>
    rw [List.foldl_cons]
    apply ih
    unfold seenInsert
    split
    · exact h
    · next hb => exact List.Nodup.append h (List.nodup_singleton b) (by simpa using hb)

theorem nodup_distinctFirst [DecidableEq α] (xs : List α) :
    (distinctFirst xs).Nodup :=
  nodup_foldl_seenInsert xs [] List.nodup_nil

theorem valueCounts_perm [DecidableEq α] (xs : List α) :
    (valueCounts xs).Perm ((distinctFirst xs).map (fun a => (a, xs.count a))) :=
  List.perm_insertionSort _ _

theorem mem_valueCounts [DecidableEq α] {xs : List α} {a : α} {c : Nat} :
    (a, c) ∈ valueCounts xs ↔ a ∈ xs ∧ c = xs.count a := by
  rw [(valueCounts_perm xs).mem_iff, List.mem_map]
  constructor
  · rintro ⟨b, hb, heq⟩
    cases heq
    exact ⟨(mem_distinctFirst _ xs).1 hb, rfl⟩
  · rintro ⟨ha, rfl⟩
    exact ⟨a, (mem_distinctFirst a xs).2 ha, rfl⟩


theorem valueCounts_eq_nil_iff [DecidableEq α] (xs : List α) :
    valueCounts xs = [] ↔ xs = [] := by
  constructor
  · intro h
    rcases xs with _ | ⟨a, xs⟩
    · rfl
    · have hmem : (a, (a :: xs).count a) ∈ valueCounts (a :: xs) :=
        mem_valueCounts.2 ⟨List.mem_cons_self a xs, rfl⟩
      rw [h] at hmem
      cases hmem
  · rintro rfl
    rfl

theorem nodup_valueCounts_keys [DecidableEq α] (xs : List α) :
    ((valueCounts xs).map Prod.fst).Nodup := by
  have hperm := (valueCounts_perm xs).map Prod.fst
  rw [hperm.nodup_iff, List.map_map]
  have hid : (Prod.fst ∘ fun a => (a, xs.count a)) = id := rfl
  rw [hid, List.map_id]
  exact nodup_distinctFirst xs

theorem sortIndex_perm (l : List (Int × Nat)) : (sortIndex l).Perm l :=
  List.perm_insertionSort _ _

theorem detonationsByYear_perm (rows : List Row) :
    (detonationsByYear rows).Perm (valueCounts (yearSeries rows)) :=
  sortIndex_perm _

theorem mem_detonationsByYear {rows : List Row} {y : Int} {c : Nat} :
    (y, c) ∈ detonationsByYear rows ↔ y ∈ yearSeries rows ∧ c = (yearSeries rows).count y := by
  rw [(detonationsByYear_perm rows).mem_iff, mem_valueCounts]

theorem detonationsByYear_sorted (rows : List Row) :
    List.Pairwise (fun p q : Int × Nat => p.1 < q.1) (detonationsByYear rows) := by
  have hs : List.Sorted yearOrder (detonationsByYear rows) :=
    List.sorted_insertionSort _ _
  have hnodup : ((detonationsByYear rows).map Prod.fst).Nodup := by
    rw [((detonationsByYear_perm rows).map Prod.fst).nodup_iff]
    exact nodup_valueCounts_keys _
  have hne : List.Pairwise (fun p q : Int × Nat => p.1 ≠ q.1) (detonationsByYear rows) :=
    List.pairwise_map.mp hnodup
  exact (hs.and hne).imp (fun h => lt_of_le_of_ne h.1 h.2)

theorem detonationsByYear_eq_nil_iff (rows : List Row) :
    detonationsByYear rows = [] ↔ yearSeries rows = [] := by
  rw [← valueCounts_eq_nil_iff (yearSeries rows)]
  constructor
  · intro h
    have := (detonationsByYear_perm rows).length_eq
    rw [h] at this
    exact List.length_eq_zero.mp this.symm
  · intro h
    unfold detonationsByYear
    rw [h]
    rfl

theorem count_filterMap_eq_length_filter [DecidableEq β] (f : α → Option β) (l : List α) (b : β) :
    (l.filterMap f).count b = (l.filter (fun a => f a == some b)).length := by
  induction l with
  | nil => rfl
  | cons a l ih =>
    rw [List.filterMap_cons, List.filter_cons]
    cases hfa : f a with
    | none => simpa [hfa] using ih
    | some v =>
      by_cases hv : v = b
      · subst hv
        simp [List.count_cons, ih, Nat.add_comm]
      · simp [List.count_cons, hv, ih]

/-!
Shared helper lemmas about `prepareChartData` itself.
-/

theorem unrecognizedMsg_ne_empty (cat : String) :
    "The visual category \x27" ++ cat ++ "\x27 is not recognized or implemented." ≠ "" := by
  intro h
  have hlen := congrArg String.length h
  rw [String.length_append, String.length_append] at hlen
  have h1 : ("The visual category \x27" : String).length = 21 := rfl
  have h2 : ("" : String).length = 0 := rfl
  omega

theorem exists_ok_of_isOk {ε α : Type} {e : Except ε α} (h : e.isOk = true) :
    ∃ a, e = .ok a := by
  cases e with
  | error err => simp [Except.isOk, Except.toBool] at h
  | ok a => exact ⟨a, rfl⟩

set_option maxHeartbeats 1000000 in
/-- On a DataFrame carrying the full `load_data` schema every code path of
`prepare_chart_data` returns normally (no branch can raise `KeyError`). -/
theorem prepare_isOk (category : String) (id : Nat) (rows : List Row)
    (ps : List (String × String)) (nm : String) :
    (prepareChartData category id (some (mkDf rows)) ps nm).isOk = true := by
  simp only [prepareChartData, mkDf]
  repeat' split
  all_goals first
    | rfl
    | (rename_i c heq; exact Option.noConfusion (show (none : Option String) = some c from heq))

set_option maxHeartbeats 1000000 in
/-- Every normally returned result carries a non-empty message. -/
theorem prepare_message_ne (category : String) (id : Nat) (df? : Option DFrame)
    (ps : List (String × String)) (nm : String) (res : ChartResult)
    (h : prepareChartData category id df? ps nm = .ok res) :
    res.message ≠ "" := by
  cases df? with
  | none =>
    simp only [prepareChartData] at h
    injection h with h2
    subst h2
    dsimp only
    decide
  | some df =>
    simp only [prepareChartData] at h
    repeat' split at h
    all_goals first
      | (injection h with h2; subst h2; dsimp only; decide)
      | (injection h with h2; subst h2; exact unrecognizedMsg_ne_empty _)
      | (exact absurd h (by simp))

set_option maxHeartbeats 1000000 in
/-- Every normally returned result resolves its display name from the trimmed
override and the sentinel, independently of the category branch. -/
theorem finalDisplayName_eq (category : String) (id : Nat) (df? : Option DFrame)
    (ps : List (String × String)) (nm : String) (res : ChartResult)
    (h : prepareChartData category id df? ps nm = .ok res) :
    res.finalDisplayName =
      if pyStrip nm ≠ "" ∧ pyLower (pyStrip nm) ≠ "no name" then pyStrip nm
      else "Visual #" ++ toString id := by
  cases df? with
  | none =>
    simp only [prepareChartData] at h
    injection h with h2
    subst h2
    rfl
  | some df =>
    simp only [prepareChartData] at h
    repeat' split at h
    all_goals first
      | (injection h with h2; subst h2; rfl)
      | (injection h with h2; subst h2; split <;> first | rfl | (exact absurd ‹_› ‹_›))
      | (exact absurd h (by simp))

/-!
Claim theorems.
-/

/-- Claim C1, counterexample: on a non-empty DataFrame that lacks the
`Yield.Avg` column, the histogram branch of `prepare_chart_data` raises
`KeyError` to its caller instead of converting the missing-column condition
into a `success=false` result. -/
theorem prepareChartData_missing_column_raises :
    prepareChartData "Histogram of Average Yields" 1
      (some ⟨["Date"], [emptyRow]⟩) [] "no name" = .error (.keyError "Yield.Avg") := rfl

/-- Claim C1, amended: for every non-empty records DataFrame carrying the
expected `load_data` columns, every category string, purpose dictionary and
override name, `prepare_chart_data` returns normally with a result holding a
boolean success flag and a non-empty message; a required column that is
missing, however, raises `KeyError` rather than being converted to
`success=false`. -/
theorem prepareChartData_total_on_schema (category : String) (id : Nat)
    (rows : List Row) (ps : List (String × String)) (nm : String) (hne : rows ≠ []) :
    ∃ res, prepareChartData category id (some (mkDf rows)) ps nm = .ok res ∧
      res.message ≠ "" := by
  obtain ⟨res, hres⟩ := exists_ok_of_isOk (prepare_isOk category id rows ps nm)
  exact ⟨res, hres, prepare_message_ne category id _ ps nm res hres⟩

theorem prepareChartData_total_on_schema_witness :
    ∃ res, prepareChartData "Bogus Category" 1 (some (mkDf [emptyRow])) [] "x" = .ok res ∧
      res.message ≠ "" :=
  prepareChartData_total_on_schema "Bogus Category" 1 [emptyRow] [] "x" (by simp)

/-- Claim C3: for every category and id, the returned display name is the
trimmed override verbatim when that trim is non-empty and not
case-insensitively the sentinel, and the generated default built from the
numeric identifier otherwise. -/
theorem display_name_resolution (category : String) (id : Nat) (df? : Option DFrame)
    (ps : List (String × String)) (nm : String) (res : ChartResult)
    (h : prepareChartData category id df? ps nm = .ok res) :
    (pyStrip nm ≠ "" ∧ pyLower (pyStrip nm) ≠ "no name" →
      res.finalDisplayName = pyStrip nm) ∧
    ((pyStrip nm = "" ∨ pyLower (pyStrip nm) = "no name") →
      res.finalDisplayName = "Visual #" ++ toString id) := by
  have heq := finalDisplayName_eq category id df? ps nm res h
  constructor
  · intro hc
    rw [heq, if_pos hc]
  · intro hc
    rw [heq, if_neg]
    rcases hc with hc | hc
    · exact fun hand => hand.1 hc
    · exact fun hand => hand.2 hc

theorem display_name_resolution_witness :
    (∃ r1, prepareChartData "Bogus" 7 none [] "  Trinity Test  " = .ok r1 ∧
        r1.finalDisplayName = "Trinity Test") ∧
    (∃ r2, prepareChartData "Bogus" 7 none [] "" = .ok r2 ∧
        r2.finalDisplayName = "Visual #7") ∧
    (∃ r3, prepareChartData "Bogus" 7 none [] "nO NaMe" = .ok r3 ∧
        r3.finalDisplayName = "Visual #7") := by
  refine ⟨⟨_, rfl, ?_⟩, ⟨_, rfl, ?_⟩, ⟨_, rfl, ?_⟩⟩
  · have h := (display_name_resolution "Bogus" 7 none [] "  Trinity Test  " _ rfl).1
      (by decide)
    rw [h]
    decide
  · have h := (display_name_resolution "Bogus" 7 none [] "" _ rfl).2 (by decide)
    rw [h]
    decide
  · have h := (display_name_resolution "Bogus" 7 none [] "nO NaMe" _ rfl).2 (by decide)
    rw [h]
    decide

theorem mem_histValues {rows : List Row} {v : Rat} :
    v ∈ histValues rows ↔ ∃ r ∈ rows, r.yieldAvg = some v := by
  unfold histValues
  exact List.mem_filterMap

theorem mem_scatterRows {rows : List Row} {y d : Rat} :
    (y, d) ∈ scatterRows rows ↔ ∃ r ∈ rows, r.yieldAvg = some y ∧ r.depth = some d := by
  unfold scatterRows
  rw [List.mem_filterMap]
  constructor
  · rintro ⟨r, hr, hf⟩
    rcases hy : r.yieldAvg with _ | y0 <;> rcases hd : r.depth with _ | d0 <;>
      rw [hy, hd] at hf <;> simp at hf
    obtain ⟨rfl, rfl⟩ := hf
    exact ⟨r, hr, hy, hd⟩
  · rintro ⟨r, hr, hy, hd⟩
    exact ⟨r, hr, by rw [hy, hd]⟩

theorem noData_ne_unrecognizedMsg (cat : String) :
    ("No data available after filtering to generate visual." : String) ≠
      "The visual category \x27" ++ cat ++ "\x27 is not recognized or implemented." := by
  intro h
  have hd : ("No data available after filtering to generate visual." : String).data.head? =
      ("The visual category \x27" ++ cat ++
        "\x27 is not recognized or implemented." : String).data.head? := by
    rw [h]
  rw [String.data_append, String.data_append,
    show ("The visual category \x27" : String).data =
      'T' :: ("he visual category \x27" : String).data from rfl,
    List.cons_append, List.cons_append, List.head?_cons, List.head?_cons] at hd
  exact absurd hd (by decide)

/-- Run-level invariant of the add-visual handler: the counter always matches
`min (submitted valid adds) 10` and the queued ids are exactly `1..counter`. -/
theorem applyAdds_inv (reqs : List (String × String)) (s : QueueState)
    (hvalid : ∀ p ∈ reqs, p.1 ≠ "Select a category...")
    (hc : s.visualIdCounter ≤ 10)
    (hids : s.visualsToRender.map QueuedVisual.id = List.range' 1 s.visualIdCounter) :
    (applyAdds s reqs).visualIdCounter = min (s.visualIdCounter + reqs.length) 10 ∧
    (applyAdds s reqs).visualsToRender.map QueuedVisual.id =
      List.range' 1 (applyAdds s reqs).visualIdCounter := by
  induction reqs generalizing s with
  | nil =>
    simp only [applyAdds, List.length_nil]
    exact ⟨by omega, hids⟩
  | cons p reqs ih =>
    obtain ⟨c, n⟩ := p
    have hc1 : c ≠ "Select a category..." := hvalid (c, n) (List.mem_cons_self _ _)
    have hvalid2 : ∀ q ∈ reqs, q.1 ≠ "Select a category..." :=
      fun q hq => hvalid q (List.mem_cons_of_mem _ hq)
    simp only [applyAdds, submitAddVisual]
    rw [if_pos hc1]
    by_cases hlt : s.visualIdCounter < 10
    · rw [if_pos hlt]
      have hids2 : (s.visualsToRender ++
            [(⟨s.visualIdCounter + 1, c, n⟩ : QueuedVisual)]).map
            QueuedVisual.id = List.range' 1 (s.visualIdCounter + 1) := by
        rw [List.map_append, hids, List.range'_concat]
        simp [Nat.add_comm]
      obtain ⟨h1, h2⟩ := ih
        { visualIdCounter := s.visualIdCounter + 1,
          visualsToRender := s.visualsToRender ++
            [(⟨s.visualIdCounter + 1, c, n⟩ : QueuedVisual)] }
        hvalid2 (by dsimp only; omega) hids2
      refine ⟨?_, h2⟩
      rw [h1]
      dsimp only
      simp only [List.length_cons]
      congr 1
      omega
    · rw [if_neg hlt]
      obtain ⟨h1, h2⟩ := ih s hvalid2 hc hids
      refine ⟨?_, h2⟩
      rw [h1]
      have h10 : s.visualIdCounter = 10 := by omega
      rw [h10, Nat.min_eq_right (by omega), Nat.min_eq_right (by omega)]

/-- Claim C2: for the bar-chart-by-purpose category on non-empty records, each
purpose code is mapped through the purpose dictionary (a code not found is its
own raw label), occurrences are counted per mapped label, the builder applies
no sort beyond the underlying `value_counts` aggregation, and `success=false`
holds exactly when no purpose values remain after mapping (which, for a
non-empty collection, never happens because even a missing code maps to the
string label of `NaN`). -/
theorem bar_branch (rows : List Row) (vid : Nat)
    (ps : List (String × String)) (nm : String) (hne : rows ≠ []) :
    ∃ res, prepareChartData "Bar Chart: Detonations by Purpose" vid (some (mkDf rows)) ps nm =
        .ok res ∧
      res.data = .bars ((valueCounts (purposeSeries ps rows)).map Prod.fst)
        ((valueCounts (purposeSeries ps rows)).map Prod.snd) ∧
      (∀ s v, ps.lookup s = some v → purposeLabel ps (some s) = v) ∧
      (∀ s, ps.lookup s = none → purposeLabel ps (some s) = s) ∧
      (∀ l c, (l, c) ∈ valueCounts (purposeSeries ps rows) →
        c = (purposeSeries ps rows).count l) ∧
      (res.success = false ↔ purposeSeries ps rows = []) := by
  obtain ⟨r, rs, rfl⟩ := List.exists_cons_of_ne_nil hne
  have hser : purposeSeries ps (r :: rs) ≠ [] := by simp [purposeSeries]
  have hvc : valueCounts (purposeSeries ps (r :: rs)) ≠ [] := by
    rw [Ne, valueCounts_eq_nil_iff]
    exact hser
  simp only [prepareChartData, mkDf]
  rw [if_pos hvc]
  refine ⟨_, rfl, rfl, ?_, ?_, ?_, ?_⟩
  · intro s v h
    simp [purposeLabel, h]
  · intro s h
    simp [purposeLabel, h]
  · intro l c hmem
    exact (mem_valueCounts.1 hmem).2
  · simp only [Bool.true_eq_false, false_iff]
    exact hser

theorem bar_branch_witness :
    ∃ res, prepareChartData "Bar Chart: Detonations by Purpose" 1
        (some (mkDf [rowPurpose "Wr", rowPurpose "Pne", rowPurpose "Wr", emptyRow]))
        [("Wr", "Warhead Research")] "x" = .ok res ∧
      res.data = .bars ["Warhead Research", "Pne", "nan"] [2, 1, 1] ∧
      res.success = true := by
  obtain ⟨res, hok, hdata, -, -, -, hiff⟩ :=
    bar_branch [rowPurpose "Wr", rowPurpose "Pne", rowPurpose "Wr", emptyRow] 1
      [("Wr", "Warhead Research")] "x" (by simp)
  refine ⟨res, hok, ?_, ?_⟩
  · rw [hdata]
    decide
  · cases hb : res.success with
    | true => rfl
    | false => exact absurd (hiff.mp hb) (by decide)

/-- Claim C4: the derived average yield of `load_data` is `NaN` exactly when
either yield bound is missing; the `0` default for a missing average yield is
substituted only in the map-rendering branch (`fillna(0)` inside
`mapPointOf`), while the histogram branch drops missing values instead of
defaulting them: its value list contains exactly the present values. -/
theorem yield_avg_policy :
    (∀ lo hi : Option Rat, mkYieldAvg lo hi = none ↔ lo = none ∨ hi = none) ∧
    (∀ rows vid ps nm, rows ≠ ([] : List Row) →
      ∃ res, prepareChartData "Map of Filtered Detonations" vid (some (mkDf rows)) ps nm =
          .ok res ∧
        res.data = .points (rows.map mapPointOf) ∧
        ∀ r ∈ rows, (mapPointOf r).yieldAvg = r.yieldAvg.getD 0) ∧
    (∀ rows vid ps nm, rows ≠ ([] : List Row) →
      ∃ res, prepareChartData "Histogram of Average Yields" vid (some (mkDf rows)) ps nm =
          .ok res ∧
        (res.data = .values (histValues rows) ∨
          (histValues rows = [] ∧ res.data = .empty))) ∧
    (∀ rows (v : Rat), v ∈ histValues rows ↔ ∃ r ∈ rows, r.yieldAvg = some v) := by
  refine ⟨?_, ?_, ?_, ?_⟩
  · intro lo hi
    cases lo <;> cases hi <;> simp [mkYieldAvg]
  · intro rows vid ps nm hne
    obtain ⟨r, rs, rfl⟩ := List.exists_cons_of_ne_nil hne
    simp only [prepareChartData, mkDf]
    exact ⟨_, rfl, rfl, fun r hr => rfl⟩
  · intro rows vid ps nm hne
    obtain ⟨r, rs, rfl⟩ := List.exists_cons_of_ne_nil hne
    simp only [prepareChartData, mkDf]
    rcases hv : histValues (r :: rs) with _ | ⟨v, vs⟩
    · exact ⟨_, rfl, Or.inr ⟨rfl, rfl⟩⟩
    · exact ⟨_, rfl, Or.inl rfl⟩
  · intro rows v
    exact mem_histValues

theorem yield_avg_policy_witness :
    mkYieldAvg (some 1) none = none ∧
    ∃ res, prepareChartData "Map of Filtered Detonations" 1 (some (mkDf [emptyRow])) [] "x" =
        .ok res ∧
      res.data = .points [mapPointOf emptyRow] ∧ (mapPointOf emptyRow).yieldAvg = 0 := by
  obtain ⟨res, hok, hdata, hpt⟩ := yield_avg_policy.2.1 [emptyRow] 1 [] "x" (by simp)
  exact ⟨(yield_avg_policy.1 (some 1) none).2 (Or.inr rfl), res, hok, hdata,
    hpt emptyRow (by simp)⟩

/-- Claim C5: the scatter yield-vs-depth branch drops every row missing either
the average yield or the depth and succeeds exactly when at least 2 complete
rows remain; the plotted pairs are the complete `(depth, yield)` pairs. -/
theorem scatter_branch (rows : List Row) (vid : Nat)
    (ps : List (String × String)) (nm : String) (hne : rows ≠ []) :
    ∃ res, prepareChartData "Scatter Plot: Yield vs. Depth" vid (some (mkDf rows)) ps nm =
        .ok res ∧
      (res.success = true ↔ 2 ≤ (scatterRows rows).length) ∧
      (2 ≤ (scatterRows rows).length →
        res.data = .scatter ((scatterRows rows).map Prod.snd)
          ((scatterRows rows).map Prod.fst)) ∧
      (∀ y d, (y, d) ∈ scatterRows rows ↔
        ∃ r ∈ rows, r.yieldAvg = some y ∧ r.depth = some d) := by
  obtain ⟨r, rs, rfl⟩ := List.exists_cons_of_ne_nil hne
  simp only [prepareChartData, mkDf]
  by_cases hc : scatterRows (r :: rs) ≠ [] ∧ (scatterRows (r :: rs)).length > 1
  · rw [if_pos hc]
    refine ⟨_, rfl, by simpa using hc.2, fun _ => rfl, fun y d => mem_scatterRows⟩
  · rw [if_neg hc]
    refine ⟨_, rfl, ?_, ?_, fun y d => mem_scatterRows⟩
    · simp only [Bool.false_eq_true, false_iff]
      intro h2
      exact hc ⟨by intro h0; rw [h0] at h2; simp at h2, by omega⟩
    · intro h2
      exact absurd ⟨by intro h0; rw [h0] at h2; simp at h2, by omega⟩ hc

theorem scatter_branch_witness :
    ∃ res, prepareChartData "Scatter Plot: Yield vs. Depth" 1
        (some (mkDf [rowYD 5 2, emptyRow])) [] "x" = .ok res ∧
      res.success = false := by
  obtain ⟨res, hok, hiff, -, -⟩ := scatter_branch [rowYD 5 2, emptyRow] 1 [] "x" (by simp)
  refine ⟨res, hok, ?_⟩
  cases hb : res.success with
  | false => rfl
  | true =>
    have h2 := hiff.mp hb
    rw [show scatterRows [rowYD 5 2, emptyRow] = [(5, 2)] from by decide] at h2
    simp at h2

/-- Claim C6: for the timeline category with at least one date present, the
builder succeeds; the series counts records per year of their date, sorted
strictly ascending by year. -/
theorem timeline_branch (rows : List Row) (vid : Nat)
    (ps : List (String × String)) (nm : String)
    (hdate : ∃ r ∈ rows, r.date.isSome) :
    ∃ res, prepareChartData "Timeline: Detonations by Year" vid (some (mkDf rows)) ps nm =
        .ok res ∧
      res.success = true ∧
      res.data = .series ((detonationsByYear rows).map Prod.fst)
        ((detonationsByYear rows).map Prod.snd) ∧
      List.Pairwise (fun p q : Int × Nat => p.1 < q.1) (detonationsByYear rows) ∧
      (∀ y c, (y, c) ∈ detonationsByYear rows →
        c = (rows.filter (fun r => r.date.map PDate.year == some y)).length) ∧
      (∀ y c, (y, c) ∈ detonationsByYear rows ↔
        y ∈ yearSeries rows ∧ c = (yearSeries rows).count y) := by
  obtain ⟨r0, hr0, hs0⟩ := hdate
  obtain ⟨d0, hd0⟩ := Option.isSome_iff_exists.mp hs0
  have hyne : yearSeries rows ≠ [] := by
    apply List.ne_nil_of_mem (a := d0.year)
    unfold yearSeries
    rw [List.mem_filterMap]
    exact ⟨r0, hr0, by rw [hd0]; rfl⟩
  have hby : detonationsByYear rows ≠ [] := by
    rw [Ne, detonationsByYear_eq_nil_iff]
    exact hyne
  obtain ⟨r, rs, rfl⟩ := List.exists_cons_of_ne_nil (List.ne_nil_of_mem hr0)
  simp only [prepareChartData, mkDf]
  rw [if_pos hby]
  refine ⟨_, rfl, rfl, rfl, detonationsByYear_sorted _, ?_, fun y c => mem_detonationsByYear⟩
  intro y c hmem
  rw [(mem_detonationsByYear.1 hmem).2]
  unfold yearSeries
  exact count_filterMap_eq_length_filter _ _ _

theorem timeline_branch_witness :
    ∃ res, prepareChartData "Timeline: Detonations by Year" 1
        (some (mkDf [rowYear 1955, rowYear 1955, rowYear 1957])) [] "x" = .ok res ∧
      res.success = true ∧ res.data = .series [1955, 1957] [2, 1] := by
  obtain ⟨res, hok, hsucc, hdata, -, -, -⟩ :=
    timeline_branch [rowYear 1955, rowYear 1955, rowYear 1957] 1 [] "x" (by decide)
  refine ⟨res, hok, hsucc, ?_⟩
  rw [hdata]
  decide

/-- Claim C7: the histogram branch drops missing average-yield values and
passes the remaining values through unchanged and in order; it returns
`success=false` exactly when all values are missing or absent. -/
theorem histogram_branch (rows : List Row) (vid : Nat)
    (ps : List (String × String)) (nm : String) (hne : rows ≠ []) :
    ∃ res, prepareChartData "Histogram of Average Yields" vid (some (mkDf rows)) ps nm =
        .ok res ∧
      (res.success = false ↔ histValues rows = []) ∧
      (histValues rows ≠ [] → res.data = .values (histValues rows)) ∧
      histValues rows = (rows.map Row.yieldAvg).filterMap (fun x => x) := by
  have hfm : histValues rows = (rows.map Row.yieldAvg).filterMap (fun x => x) := by
    rw [List.filterMap_map]
    rfl
  obtain ⟨r, rs, rfl⟩ := List.exists_cons_of_ne_nil hne
  simp only [prepareChartData, mkDf]
  rcases hv : histValues (r :: rs) with _ | ⟨v, vs⟩
  · exact ⟨_, rfl, by simp, by simp, hv ▸ hfm⟩
  · exact ⟨_, rfl, by simp, fun _ => rfl, hv ▸ hfm⟩

theorem histogram_branch_witness :
    ∃ res, prepareChartData "Histogram of Average Yields" 1
        (some (mkDf [rowY 1, rowY 2, emptyRow, rowY 3])) [] "x" = .ok res ∧
      res.success = true ∧ res.data = .values [1, 2, 3] := by
  obtain ⟨res, hok, hiff, hdata, -⟩ :=
    histogram_branch [rowY 1, rowY 2, emptyRow, rowY 3] 1 [] "x" (by simp)
  have hv : histValues [rowY 1, rowY 2, emptyRow, rowY 3] = [1, 2, 3] := by decide
  refine ⟨res, hok, ?_, ?_⟩
  · cases hb : res.success with
    | false => exact absurd (hiff.mp hb) (by rw [hv]; simp)
    | true => rfl
  · rw [hdata (by rw [hv]; simp), hv]

/-- Claim C8: for every category string, an empty (or absent) records
collection makes the builder return `success=false` with a diagnostic message
and raise no error. -/
theorem empty_records_degrade (category : String) (vid : Nat)
    (ps : List (String × String)) (nm : String) (df? : Option DFrame)
    (hempty : ∀ df, df? = some df → df.rows = []) :
    ∃ res, prepareChartData category vid df? ps nm = .ok res ∧
      res.success = false ∧ res.message ≠ "" := by
  cases df? with
  | none => exact ⟨_, rfl, rfl, by dsimp only; decide⟩
  | some df =>
    have h := hempty df rfl
    simp only [prepareChartData]
    rw [if_pos h]
    exact ⟨_, rfl, rfl, by dsimp only; decide⟩

theorem empty_records_degrade_witness :
    ∃ res, prepareChartData "Histogram of Average Yields" 1 (some ⟨[], []⟩) [] "name" =
        .ok res ∧ res.success = false ∧ res.message ≠ "" :=
  empty_records_degrade "Histogram of Average Yields" 1 [] "name" (some ⟨[], []⟩)
    (fun df hdf => by cases hdf; rfl)

/-- Claim C9: starting from the empty queue, each accepted add appends one
entry with the next sequential identifier (1-based, monotone) while fewer
than 10 adds have been accepted; once 10 have been accepted every further add
is rejected with no state change, so the queue length stays 10. -/
theorem queue_capacity (reqs : List (String × String))
    (hvalid : ∀ p ∈ reqs, p.1 ≠ "Select a category...") :
    (applyAdds initialQueueState reqs).visualsToRender.length = min reqs.length 10 ∧
    ((applyAdds initialQueueState reqs).visualsToRender.map QueuedVisual.id =
      List.range' 1 (min reqs.length 10)) ∧
    (∀ (s : QueueState) (category name : String), category ≠ "Select a category..." →
      s.visualIdCounter < 10 →
      submitAddVisual s category name =
        ({ visualIdCounter := s.visualIdCounter + 1,
           visualsToRender := s.visualsToRender ++
             [(⟨s.visualIdCounter + 1, category, name⟩ : QueuedVisual)] },
         .added)) ∧
    (∀ category name : String, category ≠ "Select a category..." →
      (applyAdds initialQueueState reqs).visualIdCounter = 10 →
      submitAddVisual (applyAdds initialQueueState reqs) category name =
        ((applyAdds initialQueueState reqs), .rejectedFull)) := by
  obtain ⟨h1, h2⟩ := applyAdds_inv reqs initialQueueState hvalid (by decide) rfl
  have hzero : initialQueueState.visualIdCounter = 0 := rfl
  rw [hzero, Nat.zero_add] at h1
  refine ⟨?_, ?_, ?_, ?_⟩
  · have hlen := congrArg List.length h2
    rw [List.length_map, List.length_range'] at hlen
    rw [hlen, h1]
  · rw [h2, h1]
  · intro s category name hcat hlt
    unfold submitAddVisual
    rw [if_pos hcat, if_pos hlt]
  · intro category name hcat h10
    unfold submitAddVisual
    rw [if_pos hcat, h10]
    norm_num

theorem queue_capacity_witness :
    (applyAdds initialQueueState
        (List.replicate 11 ("Histogram of Average Yields", ""))).visualsToRender.length =
      10 ∧
    (applyAdds initialQueueState
        (List.replicate 11 ("Histogram of Average Yields", ""))).visualsToRender.map
        QueuedVisual.id = List.range' 1 10 := by
  obtain ⟨h1, h2, -, -⟩ :=
    queue_capacity (List.replicate 11 ("Histogram of Average Yields", "")) (by decide)
  refine ⟨?_, ?_⟩
  · rw [h1, List.length_replicate]
    decide
  · rw [h2, List.length_replicate]
    decide

/-- Claim C10: the empty-input check precedes category dispatch: an absent or
empty records collection makes every category string (recognised or not)
return `success=false`, the fixed no-data message, and no chart type, while
the unrecognized-category message appears only for non-empty records (the two
messages are distinct for every category string). -/
theorem empty_check_priority :
    (∀ (category : String) (vid : Nat) (ps : List (String × String)) (nm : String),
      ∃ res, prepareChartData category vid none ps nm = .ok res ∧
        res.message = "No data available after filtering to generate visual." ∧
        res.success = false ∧ res.chartType = none) ∧
    (∀ (category : String) (vid : Nat) (ps : List (String × String)) (nm : String)
        (df : DFrame), df.rows = [] →
      ∃ res, prepareChartData category vid (some df) ps nm = .ok res ∧
        res.message = "No data available after filtering to generate visual." ∧
        res.success = false ∧ res.chartType = none) ∧
    (∀ (category : String) (vid : Nat) (ps : List (String × String)) (nm : String)
        (rows : List Row), rows ≠ [] → category ∉ visualCategoryOptions →
      ∃ res, prepareChartData category vid (some (mkDf rows)) ps nm = .ok res ∧
        res.message =
          "The visual category \x27" ++ category ++
            "\x27 is not recognized or implemented.") ∧
    (∀ category : String,
      ("No data available after filtering to generate visual." : String) ≠
        "The visual category \x27" ++ category ++
          "\x27 is not recognized or implemented.") := by
  refine ⟨?_, ?_, ?_, noData_ne_unrecognizedMsg⟩
  · intro category vid ps nm
    exact ⟨_, rfl, rfl, rfl, rfl⟩
  · intro category vid ps nm df h
    simp only [prepareChartData]
    rw [if_pos h]
    exact ⟨_, rfl, rfl, rfl, rfl⟩
  · intro category vid ps nm rows hne hnotin
    simp only [visualCategoryOptions, List.mem_cons, List.mem_singleton, not_or] at hnotin
    obtain ⟨h1, h2, h3, h4, h5, h6, -⟩ := hnotin
    obtain ⟨r, rs, rfl⟩ := List.exists_cons_of_ne_nil hne
    simp only [prepareChartData, mkDf]
    rw [if_neg (List.cons_ne_nil r rs), if_neg h1, if_neg h2, if_neg h3, if_neg h4,
      if_neg h5, if_neg h6]
    exact ⟨_, rfl, rfl⟩

theorem empty_check_priority_witness :
    (∃ r1, prepareChartData "Banana Chart" 1 (some ⟨[], []⟩) [] "x" = .ok r1 ∧
        r1.message = "No data available after filtering to generate visual." ∧
        r1.success = false ∧ r1.chartType = none) ∧
    (∃ r2, prepareChartData "Banana Chart" 1 (some (mkDf [emptyRow])) [] "x" = .ok r2 ∧
        r2.message =
          "The visual category \x27Banana Chart\x27 is not recognized or implemented.") := by
  constructor
  · exact empty_check_priority.2.1 "Banana Chart" 1 [] "x" ⟨[], []⟩ rfl
  · obtain ⟨r2, hok, hmsg⟩ := empty_check_priority.2.2.1 "Banana Chart" 1 [] "x" [emptyRow]
      (by simp) (by decide)
    exact ⟨r2, hok, by rw [hmsg]; rfl⟩
